import Mathlib

/-!
# KinectRecorder / AudioCapture.cpp

A shallow embedding of `AudioCapture.cpp`:

* `WriteWaveHeader` writes the RIFF/WAVE header of the output file with four
  `WriteFile` calls;
* `CaptureAudio` writes a placeholder header, runs the capturer until the
  user presses `s`, seeks back to the start of the file and writes the header
  again with the number of bytes captured;
* `GetKinectAudioDevice` scans the active capture endpoints for the first one
  whose friendly name passes the Kinect name test.

Bytes are natural numbers below 256, `DWORD` values are natural numbers taken
modulo `2^32`, `HRESULT` values are integers (negative means failure).  The
file behind a handle is explicit state; the outcome of every operating-system
call that can fail is read from a script carried by that state, so that each
failure path of the source can be exercised.  Where the source calls through
a null pointer or hands the C runtime an invalid parameter the process ends;
the functions concerned return an `Option` and `none` stands for that end.
-/

namespace AudioCapture

/-! ## Result codes and machine integers -/

/-- A COM result code: a signed 32-bit integer, negative on failure. -/
abbrev HRESULT := Int

/-- The code `S_OK`. -/
def S_OK : HRESULT := 0

/-- The code `E_FAIL`, `0x80004005` read as a signed 32-bit integer. -/
def E_FAIL : HRESULT := -2147467259

/-- The macro `SUCCEEDED(hr)`: `hr >= 0`. -/
def SUCCEEDED (hr : HRESULT) : Bool := decide (0 ≤ hr)

/-- The number of values of a `DWORD`. -/
def DWORD_MOD : Nat := 4294967296

/-- The little-endian memory image of a 16-bit `WORD`. -/
def le16 (v : Nat) : List Nat := [v % 256, v / 256 % 256]

/-- The little-endian memory image of a 32-bit `DWORD`. -/
def le32 (v : Nat) : List Nat :=
  [v % 256, v / 256 % 256, v / 65536 % 256, v / 16777216 % 256]

/-- The `DWORD` stored little-endian in the first four bytes of `b`. -/
def fromLE32 (b : List Nat) : Nat :=
  b.getD 0 0 + 256 * b.getD 1 0 + 65536 * b.getD 2 0 + 16777216 * b.getD 3 0

/-- The bytes of an ASCII string literal. -/
def ascii (s : String) : List Nat := s.toList.map Char.toNat

/-! ## The output file -/

/-- What the program did to the outside world, in order. -/
inductive Event where
  | writeFile (data : List Nat) (ok : Bool)
  | setFilePointer (offset : Nat) (ok : Bool)
  | start (ok : Bool)
  | stop
  deriving DecidableEq, Repr

/-- The state behind a file `HANDLE`: the bytes of the file, the file pointer,
the outcomes of the `WriteFile` and `SetFilePointer` calls still to come (an
exhausted script means success), and the calls made so far. -/
structure HANDLE where
  content : List Nat
  pointer : Nat
  writeOutcomes : List Bool
  seekOutcomes : List Bool
  trace : List Event
  deriving DecidableEq, Repr

/-- The file contents after `data` is stored at offset `pos`: a write of zero
bytes is a null write; otherwise bytes before `pos` are kept (a gap past the
end reads as zero), the bytes under `data` are replaced, the bytes after it
are kept. -/
def overwrite (content : List Nat) (pos : Nat) (data : List Nat) : List Nat :=
  if data = [] then content
  else content.take pos ++ List.replicate (pos - content.length) 0 ++ data
    ++ content.drop (pos + data.length)

/-- The call `WriteFile(h, data, len, &bytesWritten, NULL)` on a synchronous
file handle.  On success the whole buffer is stored at the file pointer, which
advances past it; on failure the file is left as it was. -/
def WriteFile (h : HANDLE) (data : List Nat) : Bool × HANDLE :=
  if h.writeOutcomes.headD true then
    (true, { h with
      content := overwrite h.content h.pointer data
      pointer := h.pointer + data.length
      writeOutcomes := h.writeOutcomes.tail
      trace := h.trace ++ [Event.writeFile data true] })
  else
    (false, { h with
      writeOutcomes := h.writeOutcomes.tail
      trace := h.trace ++ [Event.writeFile data false] })

/-- The value `INVALID_SET_FILE_POINTER`. -/
def INVALID_SET_FILE_POINTER : Nat := 4294967295

/-- The call `SetFilePointer(h, offset, NULL, FILE_BEGIN)`: the new file
pointer, or `INVALID_SET_FILE_POINTER` with the pointer left where it was. -/
def SetFilePointer (h : HANDLE) (offset : Nat) : Nat × HANDLE :=
  if h.seekOutcomes.headD true then
    (offset, { h with
      pointer := offset
      seekOutcomes := h.seekOutcomes.tail
      trace := h.trace ++ [Event.setFilePointer offset true] })
  else
    (INVALID_SET_FILE_POINTER, { h with
      seekOutcomes := h.seekOutcomes.tail
      trace := h.trace ++ [Event.setFilePointer offset false] })

/-! ## The wave format -/

/-- The Windows structure `WAVEFORMATEX` (packed, 18 bytes): encoding tag,
channel count, sample rate, byte rate, block align, bits per sample and the
length `cbSize` of the extension that follows the structure in memory. -/
structure WAVEFORMATEX where
  wFormatTag : Nat
  nChannels : Nat
  nSamplesPerSec : Nat
  nAvgBytesPerSec : Nat
  nBlockAlign : Nat
  wBitsPerSample : Nat
  cbSize : Nat
  deriving DecidableEq, Repr

/-- The value of `sizeof(WAVEFORMATEX)`. -/
def sizeof_WAVEFORMATEX : Nat := 18

/-- The memory image of a `WAVEFORMATEX`. -/
def WAVEFORMATEX.bytes (f : WAVEFORMATEX) : List Nat :=
  le16 f.wFormatTag ++ le16 f.nChannels ++ le32 f.nSamplesPerSec
    ++ le32 f.nAvgBytesPerSec ++ le16 f.nBlockAlign ++ le16 f.wBitsPerSample
    ++ le16 f.cbSize

/-- What `const WAVEFORMATEX *pWaveFormat` points at: the structure and the
bytes that follow it in the same allocation. -/
structure WaveFormat where
  fixed : WAVEFORMATEX
  extension : List Nat
  deriving DecidableEq, Repr

/-- The memory starting at `pWaveFormat`. -/
def WaveFormat.memory (p : WaveFormat) : List Nat :=
  p.fixed.bytes ++ p.extension

/-- A format is well formed when `cbSize` is a `WORD` and the allocation holds
the `cbSize` extension bytes it announces. -/
def WaveFormat.WellFormed (p : WaveFormat) : Prop :=
  p.fixed.cbSize < 65536 ∧ p.fixed.cbSize ≤ p.extension.length

instance (p : WaveFormat) : Decidable p.WellFormed := by
  unfold WaveFormat.WellFormed; infer_instance

/-- The format block of a well-formed format: the structure followed by its
`cbSize` extension bytes. -/
def WaveFormat.block (p : WaveFormat) : List Nat :=
  p.fixed.bytes ++ p.extension.take p.fixed.cbSize

/-! ## The wave header -/

/-- The structure `WAVEHEADER`: five `DWORD` fields. -/
structure WAVEHEADER where
  dwRiff : Nat
  dwSize : Nat
  dwWave : Nat
  dwFmt : Nat
  dwFmtSize : Nat
  deriving DecidableEq, Repr

/-- The value of `sizeof(WAVEHEADER)`. -/
def sizeof_WAVEHEADER : Nat := 20

/-- The value of `sizeof(DWORD)`. -/
def sizeof_DWORD : Nat := 4

/-- The array `WaveHeaderTemplate`. -/
def WaveHeaderTemplate : List Nat :=
  ascii "RIFF" ++ [0, 0, 0, 0] ++ ascii "WAVE" ++ ascii "fmt " ++ [0, 0, 0, 0]

/-- The array `WaveData`. -/
def WaveData : List Nat := ascii "data"

/-- The value of `sizeof(WaveData)`. -/
def sizeof_WaveData : Nat := 4

/-- The structure obtained by copying 20 bytes over a `WAVEHEADER`
(`memcpy_s(&waveHeader, sizeof(waveHeader), src, 20)`). -/
def WAVEHEADER.ofBytes (b : List Nat) : WAVEHEADER :=
  { dwRiff := fromLE32 b
    dwSize := fromLE32 (b.drop 4)
    dwWave := fromLE32 (b.drop 8)
    dwFmt := fromLE32 (b.drop 12)
    dwFmtSize := fromLE32 (b.drop 16) }

/-- The memory image of a `WAVEHEADER`. -/
def WAVEHEADER.bytes (h : WAVEHEADER) : List Nat :=
  le32 h.dwRiff ++ le32 h.dwSize ++ le32 h.dwWave ++ le32 h.dwFmt ++ le32 h.dwFmtSize

/-- The local `waveHeaderSize` of `WriteWaveHeader`, a `DWORD`. -/
def waveHeaderSize (pWaveFormat : WaveFormat) : Nat :=
  (sizeof_WAVEHEADER + sizeof_WAVEFORMATEX + pWaveFormat.fixed.cbSize
    + sizeof_WaveData + sizeof_DWORD) % DWORD_MOD

/-- The local `waveHeader` of `WriteWaveHeader` once its two sizes are set.
`dwSize = waveHeaderSize + dataSize - (2 * sizeof(DWORD))` is computed in
unsigned arithmetic and stored in a `DWORD`. -/
def waveHeaderOf (pWaveFormat : WaveFormat) (dataSize : Nat) : WAVEHEADER :=
  let waveHeader := WAVEHEADER.ofBytes WaveHeaderTemplate
  { waveHeader with
    dwSize := ((waveHeaderSize pWaveFormat + dataSize) % DWORD_MOD
      + (DWORD_MOD - 2 * sizeof_DWORD)) % DWORD_MOD
    dwFmtSize := (sizeof_WAVEFORMATEX + pWaveFormat.fixed.cbSize) % DWORD_MOD }

/-- The function `WriteWaveHeader(waveFile, pWaveFormat, dataSize)`. -/
def WriteWaveHeader (waveFile : HANDLE) (pWaveFormat : WaveFormat) (dataSize : Nat) :
    HRESULT × HANDLE :=
  let waveHeader := waveHeaderOf pWaveFormat dataSize
  -- Write the file header
  let (ok1, f1) := WriteFile waveFile waveHeader.bytes
  if !ok1 then (E_FAIL, f1) else
  -- Write the format
  let (ok2, f2) := WriteFile f1
    (pWaveFormat.memory.take (sizeof_WAVEFORMATEX + pWaveFormat.fixed.cbSize))
  if !ok2 then (E_FAIL, f2) else
  -- Write the data header
  let (ok3, f3) := WriteFile f2 WaveData
  if !ok3 then (E_FAIL, f3) else
  let (ok4, f4) := WriteFile f3 (le32 dataSize)
  if !ok4 then (E_FAIL, f4) else
  (S_OK, f4)

/-! ## The capture session -/

/-- The states of a capture session. -/
inductive SessionState where
  | created
  | started
  | stopped
  deriving DecidableEq, Repr

/-- Modelled from the spec: the class `CWASAPICapture` of `WASAPICapture.h`,
which is not among the sources.  A session has a fixed output format, a state
(`Created -> Started -> Stopped`), a cumulative count of captured bytes, and
receives sample buffers from the device between `Start` and `Stop`;
`incoming` lists the buffers the device delivers before the stop signal and
`startSucceeds` tells whether the device stream can be started. -/
structure CWASAPICapture where
  outputFormat : WaveFormat
  state : SessionState
  startSucceeds : Bool
  incoming : List (List Nat)
  bytesCaptured : Nat
  deriving DecidableEq, Repr

/-- Modelled from the spec: the missing getter `GetOutputFormat`, the format
negotiated once and fixed for the lifetime of the session. -/
def CWASAPICapture.GetOutputFormat (c : CWASAPICapture) : WaveFormat := c.outputFormat

/-- Modelled from the spec: the missing getter `BytesCaptured`, the cumulative
byte counter. -/
def CWASAPICapture.BytesCaptured (c : CWASAPICapture) : Nat := c.bytesCaptured

/-- Modelled from the spec: the missing method `Start(outputFile) -> bool`,
valid only from `Created`; it begins the device stream. -/
def CWASAPICapture.Start (c : CWASAPICapture) (waveFile : HANDLE) :
    Bool × CWASAPICapture × HANDLE :=
  if c.state = SessionState.created ∧ c.startSucceeds = true then
    (true, { c with state := SessionState.started },
      { waveFile with trace := waveFile.trace ++ [Event.start true] })
  else
    (false, c, { waveFile with trace := waveFile.trace ++ [Event.start false] })

/-- Modelled from the spec: the missing streaming phase.  Buffers are appended
to the file verbatim in arrival order and the byte counter grows by the length
of each; a failed buffer write halts the stream and no further buffer is
accepted. -/
def streamBuffers : List (List Nat) → Nat → HANDLE → Nat × HANDLE
  | [], n, f => (n, f)
  | b :: bs, n, f =>
    let (ok, f1) := WriteFile f b
    if ok then streamBuffers bs (n + b.length) f1 else (n, f1)

/-- Modelled from the spec: what the running session does while the caller
waits for the stop signal. -/
def CWASAPICapture.stream (c : CWASAPICapture) (waveFile : HANDLE) :
    CWASAPICapture × HANDLE :=
  let (n, f) := streamBuffers c.incoming c.bytesCaptured waveFile
  ({ c with incoming := [], bytesCaptured := n }, f)

/-- Modelled from the spec: the missing method `Stop()`, which halts the
device stream. -/
def CWASAPICapture.Stop (c : CWASAPICapture) (waveFile : HANDLE) :
    CWASAPICapture × HANDLE :=
  ({ c with state := SessionState.stopped },
    { waveFile with trace := waveFile.trace ++ [Event.stop] })

/-- The loop `do { ch = _getwch(); } while (L'S' != towupper(ch));` over the
keys the user will press: the keys left once `s` or `S` has been read, or
`none` when the user never presses it and the loop does not end. -/
def waitForStop : List Char → Option (List Char)
  | [] => none
  | ch :: rest => if ch.toUpper = 'S' then some rest else waitForStop rest

/-- The function `CaptureAudio(capturer, waveFile, waveFileName)`, with the
keys the user will press.  The result is `none` when the key loop never ends. -/
def CaptureAudio (capturer : CWASAPICapture) (waveFile : HANDLE) (keys : List Char) :
    Option (HRESULT × CWASAPICapture × HANDLE) :=
  -- Write a placeholder wave file header.
  let (hr, f) := WriteWaveHeader waveFile capturer.GetOutputFormat 0
  if SUCCEEDED hr then
    let (started, c, f) := capturer.Start f
    if started then
      match waitForStop keys with
      | none => none
      | some _ =>
        let (c, f) := c.stream f
        let (c, f) := c.Stop f
        -- Fix up the wave file header; the result of the seek is not looked at.
        let f := (SetFilePointer f 0).2
        let (hr, f) := WriteWaveHeader f c.GetOutputFormat (c.BytesCaptured % DWORD_MOD)
        some (hr, c, f)
    else
      some (E_FAIL, c, f)
  else
    some (hr, capturer, f)

/-! ## The device resolver -/

/-- The wide-character class `iswspace`, on the ASCII range. -/
def iswspace (c : Char) : Bool := c = ' ' || (9 ≤ c.toNat && c.toNat ≤ 13)

/-- The directives of a `scanf` format: white space, an ordinary character,
and the conversion `%d`. -/
inductive Directive where
  | space
  | literal (c : Char)
  | decimal
  deriving DecidableEq, Repr

/-- The directives of a format string that uses no conversion but `%d`. -/
def parseFormat : List Char → List Directive
  | [] => []
  | '%' :: 'd' :: rest => Directive.decimal :: parseFormat rest
  | c :: rest =>
    (if iswspace c then Directive.space else Directive.literal c) :: parseFormat rest

/-- The C library scanner run on the rest of the format and of the input,
with `n` conversions assigned so far.  White space in the format skips any
white space in the input; an ordinary character must be the next input
character; `%d` skips white space and reads an optional sign and at least one
decimal digit.  The scan stops at the first directive that fails and the
result is the number of conversions assigned, or `EOF` (`-1`) when the input
ran out before the first one. -/
def runScan : List Directive → List Char → Nat → Int
  | [], _, n => n
  | Directive.space :: ds, s, n => runScan ds (s.dropWhile iswspace) n
  | Directive.literal c :: ds, s, n =>
    match s with
    | [] => if n = 0 then -1 else n
    | x :: xs => if x = c then runScan ds xs n else n
  | Directive.decimal :: ds, s, n =>
    match s.dropWhile iswspace with
    | [] => if n = 0 then -1 else n
    | x :: xs =>
      let body := if x = '+' ∨ x = '-' then xs else x :: xs
      if body.takeWhile Char.isDigit = [] then n
      else runScan ds (body.dropWhile Char.isDigit) (n + 1)

/-- The call `swscanf_s(buffer, format, &sensorIndex)`: the number of
conversions assigned, or `-1`.  A null buffer is an invalid parameter: the
Microsoft C runtime hands it to the invalid-parameter handler, which ends the
process unless the program has installed its own, and the source installs
none; `none` stands for that end of the process. -/
def swscanf_s (buffer : Option String) (format : String) : Option Int :=
  match buffer with
  | none => none
  | some s => some (runScan (parseFormat format.toList) s.toList 0)

/-- The call `lstrcmpW(a, b)`: zero exactly when the strings are equal; a null
string sorts before any string. -/
def lstrcmpW (a : Option String) (b : String) : Int :=
  match a with
  | none => -1
  | some s => if s = b then 0 else if s.toList < b.toList then -1 else 1

/-- The name test of `GetKinectAudioDevice` on `varName.pwszVal`:
`0 == lstrcmpW(..) || 1 == swscanf_s(..)`, the second call made only when the
first comparison fails; `none` when the process ends inside `swscanf_s`. -/
def isKinectName (pwszVal : Option String) : Option Bool :=
  if lstrcmpW pwszVal "Microphone Array (Xbox NUI Sensor)" == 0 then some true
  else (swscanf_s pwszVal "Microphone Array (%d- Xbox NUI Sensor)").map (fun n => n == 1)

/-- An active capture endpoint as the resolver sees it: its identity, the
results of `Item(i, &pDevice)`, of `OpenPropertyStore(STGM_READ,
&pPropertyStore)` and of `GetValue(PKEY_Device_FriendlyName, &varName)`, and
the string left in `varName.pwszVal` (`none` for a null pointer).  A call that
fails leaves its out pointer null. -/
structure IMMDevice where
  id : Nat
  hrItem : HRESULT
  hrOpenPropertyStore : HRESULT
  hrFriendlyName : HRESULT
  pwszVal : Option String
  deriving DecidableEq, Repr

/-- The enumeration capability: the results of `CoCreateInstance`,
`EnumAudioEndpoints` and `GetCount`, and the active capture endpoints in
enumeration order. -/
structure DeviceEnumeration where
  hrCreate : HRESULT
  hrEnum : HRESULT
  hrCount : HRESULT
  devices : List IMMDevice
  deriving DecidableEq, Repr

/-- The loop of `GetKinectAudioDevice` over the endpoints left to visit, with
the current `hr`.  Each visit assigns `hr` three times, from `Item`, from
`OpenPropertyStore` and from `GetValue`, and tests none of them: after a
failed `Item` the call `pDevice->OpenPropertyStore` goes through a null
pointer, after a failed `OpenPropertyStore` the call
`pPropertyStore->GetValue` does, and a null name reaches `swscanf_s`; in each
case the process ends (`none`).  Otherwise `hr` is the result of `GetValue`
when the name is tested, and the first endpoint that passes the test ends the
loop. -/
def scanDevices : List IMMDevice → HRESULT → Option (HRESULT × Option IMMDevice)
  | [], hr => some (hr, none)
  | pDevice :: rest, _ =>
    if !SUCCEEDED pDevice.hrItem then none
    else if !SUCCEEDED pDevice.hrOpenPropertyStore then none
    else
      let hr := pDevice.hrFriendlyName
      match isKinectName pDevice.pwszVal with
      | none => none
      | some true => some (hr, some pDevice)
      | some false => scanDevices rest hr

/-- The function `GetKinectAudioDevice(ppDevice)`: the result code and
`*ppDevice`, or `none` when the process ends inside the loop. -/
def GetKinectAudioDevice (e : DeviceEnumeration) : Option (HRESULT × Option IMMDevice) :=
  let scanned :=
    if SUCCEEDED e.hrCreate then
      if SUCCEEDED e.hrEnum then
        if SUCCEEDED e.hrCount then scanDevices e.devices e.hrCount
        else some (e.hrCount, none)
      else some (e.hrEnum, none)
    else some (e.hrCreate, none)
  match scanned with
  | none => none
  | some (hr, ppDevice) =>
    -- If nothing went wrong but we haven't found a device, return failure
    if SUCCEEDED hr && ppDevice.isNone then some (E_FAIL, ppDevice) else some (hr, ppDevice)

/-! ## Derived notions used to state the properties -/

/-- The four buffers `WriteWaveHeader` hands to `WriteFile`, in order. -/
def headerSegments (pWaveFormat : WaveFormat) (dataSize : Nat) : List (List Nat) :=
  [(waveHeaderOf pWaveFormat dataSize).bytes,
   pWaveFormat.memory.take (sizeof_WAVEFORMATEX + pWaveFormat.fixed.cbSize),
   WaveData,
   le32 dataSize]

/-- The header as one byte sequence. -/
def headerImage (pWaveFormat : WaveFormat) (dataSize : Nat) : List Nat :=
  (headerSegments pWaveFormat dataSize).flatten

/-- Writing buffers one after the other, stopping at the first failed write. -/
def writeAll : List (List Nat) → HANDLE → Bool × HANDLE
  | [], h => (true, h)
  | s :: ss, h =>
    let (ok, h1) := WriteFile h s
    if ok then writeAll ss h1 else (false, h1)

/-- The bytes stored by the successful `WriteFile` calls of a trace. -/
def written : List Event → List Nat
  | [] => []
  | Event.writeFile data true :: es => data ++ written es
  | _ :: es => written es

/-- The bytes emitted between two states of the same handle. -/
def emitted (before after : HANDLE) : List Nat :=
  written (after.trace.drop before.trace.length)

/-! ## Sample inputs -/

/-- A freshly created, empty output file on which every call succeeds. -/
def newFile : HANDLE := ⟨[], 0, [], [], []⟩

/-- A plain PCM format without extension: 4 channels, 16 kHz, 32 bits. -/
def pcmFormat : WaveFormat := ⟨⟨1, 4, 16000, 256000, 16, 32, 0⟩, []⟩

/-- A format with a two-byte extension, in an allocation one byte longer. -/
def extFormat : WaveFormat := ⟨⟨1, 4, 16000, 256000, 16, 32, 2⟩, [7, 9, 11]⟩

/-- A new file on which the third `WriteFile` call fails. -/
def thirdWriteFails : HANDLE := ⟨[], 0, [true, true, false], [], []⟩

/-- A new file on which the seek back to the start fails. -/
def seekFails : HANDLE := ⟨[], 0, [], [false], []⟩

/-- A new file on which the seventh `WriteFile` call fails: with two payload
buffers, the first write of the final header. -/
def rewriteFails : HANDLE := ⟨[], 0, [true, true, true, true, true, true, false], [], []⟩

/-- A new file on which the first `WriteFile` call fails. -/
def firstWriteFails : HANDLE := ⟨[], 0, [false], [], []⟩

/-- A session on the PCM format to which the device delivers two buffers, of
three and two bytes. -/
def sampleCapturer : CWASAPICapture :=
  ⟨pcmFormat, SessionState.created, true, [[1, 2, 3], [4, 5]], 0⟩

/-- A session on the PCM format to which the device delivers nothing. -/
def silentCapturer : CWASAPICapture :=
  ⟨pcmFormat, SessionState.created, true, [], 0⟩

/-- A session on the PCM format to which the device delivers one buffer of
`2^32` zero bytes. -/
def hugeCapturer : CWASAPICapture :=
  ⟨pcmFormat, SessionState.created, true, [List.replicate 4294967296 0], 0⟩

/-! ## The name test in the words of the specification -/

/-- An integer as the template of the name writes it: an optional sign and
at least one decimal digit. -/
def isInteger (l : List Char) : Bool :=
  let body := match l with
    | '+' :: r => r
    | '-' :: r => r
    | _ => l
  !body.isEmpty && body.all Char.isDigit

/-- The template in the words of the specification: the whole name is
`Microphone Array (`, then an integer, then `- Xbox NUI Sensor)`. -/
def templateShape (name : String) : Bool :=
  let s := name.toList
  let pre := "Microphone Array (".toList
  let suf := "- Xbox NUI Sensor)".toList
  pre.length + suf.length ≤ s.length && s.take pre.length = pre
    && s.drop (s.length - suf.length) = suf
    && isInteger ((s.drop pre.length).take (s.length - pre.length - suf.length))

/-- The name test in the words of the specification: the literal exactly, or
the full template. -/
def specNameTest (name : String) : Bool :=
  name = "Microphone Array (Xbox NUI Sensor)" || templateShape name

/-! ## Sample endpoint lists -/

/-- An endpoint all of whose calls succeed, with the given friendly name. -/
def namedDevice (id : Nat) (name : String) : IMMDevice := ⟨id, 0, 0, 0, some name⟩

/-- The endpoint list of the first scenario: speakers, then the Kinect
microphone array. -/
def speakersThenKinect : DeviceEnumeration :=
  ⟨0, 0, 0, [namedDevice 0 "Speakers", namedDevice 1 "Microphone Array (Xbox NUI Sensor)"]⟩

/-- An endpoint list with two Kinect arrays after a webcam microphone. -/
def twoKinects : DeviceEnumeration :=
  ⟨0, 0, 0, [namedDevice 0 "Webcam Mic",
    namedDevice 1 "Microphone Array (2- Xbox NUI Sensor)",
    namedDevice 2 "Microphone Array (Xbox NUI Sensor)"]⟩

/-- An endpoint list with another vendor's indexed array before the Kinect
array. -/
def realtekThenKinect : DeviceEnumeration :=
  ⟨0, 0, 0, [namedDevice 0 "Microphone Array (7- Realtek Audio)",
    namedDevice 1 "Microphone Array (Xbox NUI Sensor)"]⟩

/-- An endpoint list made of another vendor's indexed array. -/
def onlyRealtek : DeviceEnumeration :=
  ⟨0, 0, 0, [namedDevice 0 "Microphone Array (7- Realtek Audio)"]⟩

/-- An endpoint whose friendly name cannot be read: `GetValue` fails with
`E_ACCESSDENIED` and leaves a null string. -/
def unreadableDevice : IMMDevice := ⟨7, 0, 0, -2147024891, none⟩

/-- An endpoint whose property store cannot be opened: `OpenPropertyStore`
fails with `E_ACCESSDENIED`. -/
def storelessDevice : IMMDevice := ⟨8, 0, -2147024891, -2147024891, none⟩

/-- An endpoint that `Item` fails to deliver. -/
def missingDevice : IMMDevice := ⟨9, -2147024891, -2147024891, -2147024891, none⟩

/-- The empty endpoint list. -/
def noDevices : DeviceEnumeration := ⟨0, 0, 0, []⟩

/-- The speakers followed by the given endpoint and by the Kinect microphone
array. -/
def kinectAfter (d : IMMDevice) : DeviceEnumeration :=
  ⟨0, 0, 0, [namedDevice 0 "Speakers", d,
    namedDevice 1 "Microphone Array (Xbox NUI Sensor)"]⟩

/-! ## Lemmas on the file model -/

theorem overwrite_nil (c : List Nat) (p : Nat) : overwrite c p [] = c := by
  simp [overwrite]

theorem overwrite_prefix_length (c : List Nat) (p : Nat) :
    (c.take p ++ List.replicate (p - c.length) 0).length = p := by
  simp [List.length_take]; omega

theorem overwrite_append (c : List Nat) (p : Nat) (a b : List Nat) :
    overwrite (overwrite c p a) (p + a.length) b = overwrite c p (a ++ b) := by
  by_cases ha : a = []
  · subst ha; simp [overwrite_nil]
  by_cases hb : b = []
  · subst hb; simp [overwrite_nil]
  have hab : a ++ b ≠ [] := by simp [ha]
  have hpre := overwrite_prefix_length c p
  generalize hq : c.take p ++ List.replicate (p - c.length) 0 = pre at hpre
  have e1 : overwrite c p a = (pre ++ a) ++ c.drop (p + a.length) := by
    simp [overwrite, ha, ← hq]
  have e2 : overwrite c p (a ++ b) = (pre ++ a) ++ b ++ c.drop (p + a.length + b.length) := by
    simp [overwrite, ha, ← hq, Nat.add_assoc]
  rw [e2, e1]
  have hlen : (pre ++ a).length = p + a.length := by simp [hpre]
  generalize pre ++ a = pa at hlen
  unfold overwrite
  rw [if_neg hb]
  have t1 : (pa ++ List.drop (p + a.length) c).take (p + a.length) = pa := by
    rw [← hlen]; exact List.take_left' rfl
  have t2 : p + a.length - (pa ++ List.drop (p + a.length) c).length = 0 := by
    simp [hlen]
  have t3 : (pa ++ List.drop (p + a.length) c).drop (p + a.length + b.length)
      = c.drop (p + a.length + b.length) := by
    rw [← hlen, List.drop_append, List.drop_drop, hlen]
  rw [t1, t2, t3]; simp

theorem overwrite_at_end (c data : List Nat) : overwrite c c.length data = c ++ data := by
  by_cases hd : data = []
  · subst hd; simp [overwrite_nil]
  · simp [overwrite, hd]

theorem overwrite_at_start (hdr rest data : List Nat) (h : data.length = hdr.length) :
    overwrite (hdr ++ rest) 0 data = data ++ rest := by
  by_cases hd : data = []
  · subst hd
    have : hdr = [] := by simpa using h.symm
    simp [overwrite_nil, this]
  · simp [overwrite, hd, h]

/-! ## Lemmas on sequences of writes -/

theorem WriteFile_ok (h : HANDLE) (data : List Nat)
    (hok : h.writeOutcomes.getD 0 true = true) :
    WriteFile h data = (true,
      { content := overwrite h.content h.pointer data
        pointer := h.pointer + data.length
        writeOutcomes := h.writeOutcomes.tail
        seekOutcomes := h.seekOutcomes
        trace := h.trace ++ [Event.writeFile data true] }) := by
  have : h.writeOutcomes.headD true = true := by
    cases hw : h.writeOutcomes with
    | nil => rfl
    | cons a l => simpa [hw] using hok
  unfold WriteFile; rw [this]; rfl

theorem WriteFile_fail (h : HANDLE) (data : List Nat)
    (hok : h.writeOutcomes.getD 0 true = false) :
    WriteFile h data = (false,
      { content := h.content
        pointer := h.pointer
        writeOutcomes := h.writeOutcomes.tail
        seekOutcomes := h.seekOutcomes
        trace := h.trace ++ [Event.writeFile data false] }) := by
  have : h.writeOutcomes.headD true = false := by
    cases hw : h.writeOutcomes with
    | nil => simp [hw] at hok
    | cons a l => simpa [hw] using hok
  unfold WriteFile; rw [this]; rfl

theorem getD_tail (l : List Bool) (i : Nat) : l.tail.getD i true = l.getD (i + 1) true := by
  cases l <;> simp

theorem writeAll_ok (segs : List (List Nat)) (h : HANDLE)
    (hok : ∀ i, i < segs.length → h.writeOutcomes.getD i true = true) :
    writeAll segs h = (true,
      { content := overwrite h.content h.pointer segs.flatten
        pointer := h.pointer + segs.flatten.length
        writeOutcomes := h.writeOutcomes.drop segs.length
        seekOutcomes := h.seekOutcomes
        trace := h.trace ++ segs.map (fun d => Event.writeFile d true) }) := by
  induction segs generalizing h with
  | nil => simp [writeAll, overwrite_nil]
  | cons s ss ih =>
    have h0 := hok 0 (by simp)
    simp only [writeAll, WriteFile_ok h s h0]
    rw [if_pos True.intro, ih]
    · simp [overwrite_append, Nat.add_assoc]
    · intro i hi
      simp only [getD_tail]
      exact hok (i + 1) (by simpa using hi)

theorem writeAll_fail (segs : List (List Nat)) (h : HANDLE) (k : Nat)
    (hk : k < segs.length)
    (hbefore : ∀ i, i < k → h.writeOutcomes.getD i true = true)
    (hfail : h.writeOutcomes.getD k true = false) :
    writeAll segs h = (false,
      { content := overwrite h.content h.pointer (segs.take k).flatten
        pointer := h.pointer + (segs.take k).flatten.length
        writeOutcomes := h.writeOutcomes.drop (k + 1)
        seekOutcomes := h.seekOutcomes
        trace := h.trace ++ (segs.take k).map (fun d => Event.writeFile d true)
          ++ [Event.writeFile (segs.getD k []) false] }) := by
  induction segs generalizing h k with
  | nil => simp at hk
  | cons s ss ih =>
    cases k with
    | zero =>
      simp only [writeAll, WriteFile_fail h s hfail]
      simp [overwrite_nil]
    | succ k =>
      have h0 := hbefore 0 (by simp)
      simp only [writeAll, WriteFile_ok h s h0]
      rw [if_pos True.intro, ih _ k]
      · simp [overwrite_append, Nat.add_assoc]
      · simpa using hk
      · intro i hi
        simp only [getD_tail]
        exact hbefore (i + 1) (by omega)
      · simpa only [getD_tail] using hfail

theorem WriteWaveHeader_eq_writeAll (h : HANDLE) (p : WaveFormat) (d : Nat) :
    WriteWaveHeader h p d =
      (if (writeAll (headerSegments p d) h).1 then S_OK else E_FAIL,
        (writeAll (headerSegments p d) h).2) := by
  unfold WriteWaveHeader
  simp only [headerSegments, writeAll]
  rcases WriteFile h _ with ⟨ok1, f1⟩
  cases ok1
  · simp
  simp only []
  rcases WriteFile f1 _ with ⟨ok2, f2⟩
  cases ok2
  · simp
  simp only []
  rcases WriteFile f2 _ with ⟨ok3, f3⟩
  cases ok3
  · simp
  simp only []
  rcases WriteFile f3 _ with ⟨ok4, f4⟩
  cases ok4 <;> simp

/-! ## Lemmas on the header image -/

theorem fromLE32_le32 (v : Nat) (hv : v < DWORD_MOD) : fromLE32 (le32 v) = v := by
  unfold DWORD_MOD at hv
  simp only [fromLE32, le32, List.getD_cons_zero, List.getD_cons_succ]
  omega

theorem fromLE32_le32_mod (v : Nat) : fromLE32 (le32 v) = v % DWORD_MOD := by
  unfold DWORD_MOD
  simp only [fromLE32, le32, List.getD_cons_zero, List.getD_cons_succ]
  omega

theorem le32_length (v : Nat) : (le32 v).length = 4 := rfl

theorem WAVEFORMATEX.bytes_length (f : WAVEFORMATEX) : f.bytes.length = 18 := rfl

theorem waveHeaderOf_bytes (p : WaveFormat) (d : Nat) :
    (waveHeaderOf p d).bytes =
      ascii "RIFF" ++ le32 (waveHeaderOf p d).dwSize ++ ascii "WAVE" ++ ascii "fmt "
        ++ le32 ((sizeof_WAVEFORMATEX + p.fixed.cbSize) % DWORD_MOD) := by
  have e1 : le32 (fromLE32 WaveHeaderTemplate) = ascii "RIFF" := by decide
  have e2 : le32 (fromLE32 (WaveHeaderTemplate.drop 8)) = ascii "WAVE" := by decide
  have e3 : le32 (fromLE32 (WaveHeaderTemplate.drop 12)) = ascii "fmt " := by decide
  simp only [WAVEHEADER.bytes, waveHeaderOf, WAVEHEADER.ofBytes, e1, e2, e3]

theorem dwSize_eq (p : WaveFormat) (d : Nat) (hcb : p.fixed.cbSize < 65536) :
    (waveHeaderOf p d).dwSize = (46 + p.fixed.cbSize - 8 + d) % DWORD_MOD := by
  simp only [waveHeaderOf, waveHeaderSize, sizeof_WAVEHEADER, sizeof_WAVEFORMATEX,
    sizeof_WaveData, sizeof_DWORD, DWORD_MOD]
  omega

theorem memory_take (p : WaveFormat) :
    p.memory.take (sizeof_WAVEFORMATEX + p.fixed.cbSize) = p.block := by
  unfold WaveFormat.memory WaveFormat.block sizeof_WAVEFORMATEX
  rw [List.take_append_eq_append_take]
  simp [WAVEFORMATEX.bytes_length, List.take_of_length_le]

theorem block_length (p : WaveFormat) (hwf : p.WellFormed) :
    p.block.length = sizeof_WAVEFORMATEX + p.fixed.cbSize := by
  unfold WaveFormat.block sizeof_WAVEFORMATEX
  have := hwf.2
  simp [WAVEFORMATEX.bytes_length, List.length_take]
  omega

theorem headerImage_eq (p : WaveFormat) (d : Nat) :
    headerImage p d =
      ascii "RIFF" ++ le32 (waveHeaderOf p d).dwSize ++ ascii "WAVE" ++ ascii "fmt "
        ++ le32 ((sizeof_WAVEFORMATEX + p.fixed.cbSize) % DWORD_MOD)
        ++ p.block ++ ascii "data" ++ le32 d := by
  simp only [headerImage, headerSegments, waveHeaderOf_bytes, memory_take, WaveData]
  simp [List.flatten]

theorem headerImage_length (p : WaveFormat) (d : Nat) :
    (headerImage p d).length = 28 + p.block.length := by
  rw [headerImage_eq]
  simp [ascii, le32_length]
  omega

theorem emitted_append (before : HANDLE) (es : List Event) (after : HANDLE)
    (h : after.trace = before.trace ++ es) : emitted before after = written es := by
  simp [emitted, h]

theorem written_ok (segs : List (List Nat)) :
    written (segs.map (fun d => Event.writeFile d true)) = segs.flatten := by
  induction segs with
  | nil => rfl
  | cons s ss ih => simp [written, ih]

/-- The complete effect of a header write all of whose `WriteFile` calls
succeed. -/
theorem WriteWaveHeader_ok (h : HANDLE) (p : WaveFormat) (d : Nat)
    (hok : ∀ i, i < 4 → h.writeOutcomes.getD i true = true) :
    WriteWaveHeader h p d = (S_OK,
      { content := overwrite h.content h.pointer (headerImage p d)
        pointer := h.pointer + (headerImage p d).length
        writeOutcomes := h.writeOutcomes.drop 4
        seekOutcomes := h.seekOutcomes
        trace := h.trace ++ (headerSegments p d).map (fun d => Event.writeFile d true) }) := by
  rw [WriteWaveHeader_eq_writeAll, writeAll_ok _ _ (by simpa [headerSegments] using hok)]
  simp [headerImage, headerSegments]

theorem WriteWaveHeader_emitted (h : HANDLE) (p : WaveFormat) (d : Nat)
    (hok : ∀ i, i < 4 → h.writeOutcomes.getD i true = true) :
    emitted h (WriteWaveHeader h p d).2 = headerImage p d := by
  rw [emitted_append h _ _ (by rw [WriteWaveHeader_ok h p d hok]), written_ok]
  rfl

/-! ## Properties of `WriteWaveHeader` -/

/-- C1: for a well-formed format and a 32-bit `dataSize`, when the four writes
succeed `WriteWaveHeader` returns `S_OK` and emits exactly `RIFF`, a 4-byte
size field, `WAVE`, `fmt `, the little-endian 32-bit value
`sizeof(WAVEFORMATEX) + cbSize`, the format block of that many bytes verbatim,
`data` and the little-endian 32-bit `dataSize`;
`20 + sizeof(WAVEFORMATEX) + cbSize + 8` bytes in all, stored at the file
pointer. -/
theorem C1_header_layout (waveFile : HANDLE) (p : WaveFormat) (dataSize : Nat)
    (hwf : p.WellFormed) (hd : dataSize < DWORD_MOD)
    (hok : ∀ i, i < 4 → waveFile.writeOutcomes.getD i true = true) :
    (WriteWaveHeader waveFile p dataSize).1 = S_OK ∧
    (∃ size : List Nat, size.length = 4 ∧
      emitted waveFile (WriteWaveHeader waveFile p dataSize).2 =
        ascii "RIFF" ++ size ++ ascii "WAVE" ++ ascii "fmt "
          ++ le32 (sizeof_WAVEFORMATEX + p.fixed.cbSize)
          ++ (p.fixed.bytes ++ p.extension.take p.fixed.cbSize)
          ++ ascii "data" ++ le32 dataSize) ∧
    fromLE32 (le32 (sizeof_WAVEFORMATEX + p.fixed.cbSize))
      = sizeof_WAVEFORMATEX + p.fixed.cbSize ∧
    fromLE32 (le32 dataSize) = dataSize ∧
    (p.fixed.bytes ++ p.extension.take p.fixed.cbSize).length
      = sizeof_WAVEFORMATEX + p.fixed.cbSize ∧
    (emitted waveFile (WriteWaveHeader waveFile p dataSize).2).length
      = 20 + sizeof_WAVEFORMATEX + p.fixed.cbSize + 8 ∧
    (WriteWaveHeader waveFile p dataSize).2.content
      = overwrite waveFile.content waveFile.pointer
          (emitted waveFile (WriteWaveHeader waveFile p dataSize).2) := by
  have hfs : sizeof_WAVEFORMATEX + p.fixed.cbSize < DWORD_MOD := by
    have := hwf.1
    unfold sizeof_WAVEFORMATEX DWORD_MOD; omega
  have hblock := block_length p hwf
  rw [WriteWaveHeader_emitted waveFile p dataSize hok]
  refine ⟨by rw [WriteWaveHeader_ok waveFile p dataSize hok], ?_, fromLE32_le32 _ hfs,
    fromLE32_le32 _ hd, hblock, ?_, by rw [WriteWaveHeader_ok waveFile p dataSize hok]⟩
  · refine ⟨le32 (waveHeaderOf p dataSize).dwSize, le32_length _, ?_⟩
    rw [headerImage_eq, Nat.mod_eq_of_lt hfs]
    rfl
  · rw [headerImage_length, hblock]; omega

/-- C1, on the format with a two-byte extension and `dataSize = 5`: the 48
bytes emitted on a new file. -/
theorem C1_header_layout_witness :
    extFormat.WellFormed ∧ 5 < DWORD_MOD ∧
    (WriteWaveHeader newFile extFormat 5).1 = S_OK ∧
    (emitted newFile (WriteWaveHeader newFile extFormat 5).2).length = 20 + 18 + 2 + 8 ∧
    (WriteWaveHeader newFile extFormat 5).2.content =
      [82, 73, 70, 70, 45, 0, 0, 0, 87, 65, 86, 69, 102, 109, 116, 32, 20, 0, 0, 0,
       1, 0, 4, 0, 128, 62, 0, 0, 0, 232, 3, 0, 16, 0, 32, 0, 2, 0, 7, 9,
       100, 97, 116, 97, 5, 0, 0, 0] :=
  ⟨by decide, by decide,
    (C1_header_layout newFile extFormat 5 (by decide) (by decide) (by decide)).1,
    (C1_header_layout newFile extFormat 5 (by decide) (by decide) (by decide)).2.2.2.2.2.1,
    by decide⟩

/-- C2, as stated, fails when the sum does not fit in 32 bits: with the PCM
format (a 46-byte header) and `dataSize = 4294967295` bytes 4-7 hold 37, not
`(46 - 8) + 4294967295`. -/
theorem C2_riff_size_overflow :
    ((emitted newFile (WriteWaveHeader newFile pcmFormat 4294967295).2).drop 4).take 4
      = [37, 0, 0, 0] ∧
    fromLE32 (((emitted newFile (WriteWaveHeader newFile pcmFormat 4294967295).2).drop 4).take 4)
      ≠ ((emitted newFile (WriteWaveHeader newFile pcmFormat 4294967295).2).length - 8)
          + 4294967295 := by
  decide

/-- C2, amended: for a well-formed format, when the four writes succeed bytes
4-7 of the header are the little-endian 32-bit encoding of
`((header size - 8) + dataSize) mod 2^32`, where header size is the number of
header bytes written; they hold the sum itself exactly when it is below
`2^32`. -/
theorem C2_riff_size_mod (waveFile : HANDLE) (p : WaveFormat) (dataSize : Nat)
    (hwf : p.WellFormed)
    (hok : ∀ i, i < 4 → waveFile.writeOutcomes.getD i true = true) :
    ((emitted waveFile (WriteWaveHeader waveFile p dataSize).2).drop 4).take 4
      = le32 ((((emitted waveFile (WriteWaveHeader waveFile p dataSize).2).length - 8)
          + dataSize) % DWORD_MOD) ∧
    fromLE32 (((emitted waveFile (WriteWaveHeader waveFile p dataSize).2).drop 4).take 4)
      = (((emitted waveFile (WriteWaveHeader waveFile p dataSize).2).length - 8)
          + dataSize) % DWORD_MOD := by
  rw [WriteWaveHeader_emitted waveFile p dataSize hok, headerImage_length,
    block_length p hwf]
  have hfield : ((headerImage p dataSize).drop 4).take 4
      = le32 (waveHeaderOf p dataSize).dwSize := by
    rw [headerImage_eq]
    simp [ascii, le32]
  have hsum : 28 + (sizeof_WAVEFORMATEX + p.fixed.cbSize) - 8 + dataSize
      = 46 + p.fixed.cbSize - 8 + dataSize := by
    unfold sizeof_WAVEFORMATEX; omega
  rw [hfield, dwSize_eq p dataSize hwf.1, hsum]
  exact ⟨rfl, by rw [fromLE32_le32_mod, Nat.mod_mod]⟩

/-- C2, amended, on the PCM format with `dataSize = 4294967295`. -/
theorem C2_riff_size_mod_witness :
    pcmFormat.WellFormed ∧
    fromLE32 (((emitted newFile (WriteWaveHeader newFile pcmFormat 4294967295).2).drop 4).take 4)
      = (((emitted newFile (WriteWaveHeader newFile pcmFormat 4294967295).2).length - 8)
          + 4294967295) % DWORD_MOD :=
  ⟨by decide, (C2_riff_size_mod newFile pcmFormat 4294967295 (by decide) (by decide)).2⟩

theorem getElem?_frame (A S1 S2 B T1 T2 : List Nat) (hS : S1.length = S2.length) (i : Nat)
    (hi : i < A.length ∨ (A.length + S1.length ≤ i ∧ i < A.length + S1.length + B.length)) :
    (A ++ S1 ++ B ++ T1)[i]? = (A ++ S2 ++ B ++ T2)[i]? := by
  rcases hi with hi | ⟨h1, h2⟩
  · simp only [List.append_assoc]
    rw [List.getElem?_append_left hi, List.getElem?_append_left hi]
  · have e1 : A ++ S1 ++ B ++ T1 = (A ++ S1) ++ (B ++ T1) := by simp
    have e2 : A ++ S2 ++ B ++ T2 = (A ++ S2) ++ (B ++ T2) := by simp
    have l1 : (A ++ S1).length = A.length + S1.length := by simp
    have l2 : (A ++ S2).length = A.length + S1.length := by simp [hS]
    have r1 : ((A ++ S1) ++ (B ++ T1))[i]? = B[i - (A.length + S1.length)]? := by
      rw [List.getElem?_append_right (by rw [l1]; exact h1), l1,
        List.getElem?_append_left (by omega)]
    have r2 : ((A ++ S2) ++ (B ++ T2))[i]? = B[i - (A.length + S1.length)]? := by
      rw [List.getElem?_append_right (by rw [l2]; exact h1), l2,
        List.getElem?_append_left (by omega)]
    rw [e1, e2, r1, r2]

theorem first_failure (l : List Bool) (h : ¬ ∀ i, i < 4 → l.getD i true = true) :
    ∃ k, k < 4 ∧ (∀ i, i < k → l.getD i true = true) ∧ l.getD k true = false := by
  by_cases h0 : l.getD 0 true = true
  · by_cases h1 : l.getD 1 true = true
    · by_cases h2 : l.getD 2 true = true
      · by_cases h3 : l.getD 3 true = true
        · exact absurd (fun i hi => by interval_cases i <;> assumption) h
        · exact ⟨3, by omega, fun i hi => by interval_cases i <;> assumption, by simpa using h3⟩
      · exact ⟨2, by omega, fun i hi => by interval_cases i <;> assumption, by simpa using h2⟩
    · exact ⟨1, by omega, fun i hi => by interval_cases i; assumption, by simpa using h1⟩
  · exact ⟨0, by omega, fun i hi => by omega, by simpa using h0⟩

theorem E_FAIL_ne_S_OK : E_FAIL ≠ S_OK := by decide

/-- The complete effect of a header write whose write number `k` (counted
from 0) is the first to fail. -/
theorem WriteWaveHeader_fail (h : HANDLE) (p : WaveFormat) (d k : Nat) (hk : k < 4)
    (hbefore : ∀ i, i < k → h.writeOutcomes.getD i true = true)
    (hfail : h.writeOutcomes.getD k true = false) :
    WriteWaveHeader h p d = (E_FAIL,
      { content := overwrite h.content h.pointer ((headerSegments p d).take k).flatten
        pointer := h.pointer + ((headerSegments p d).take k).flatten.length
        writeOutcomes := h.writeOutcomes.drop (k + 1)
        seekOutcomes := h.seekOutcomes
        trace := h.trace ++ ((headerSegments p d).take k).map (fun d => Event.writeFile d true)
          ++ [Event.writeFile ((headerSegments p d).getD k []) false] }) := by
  rw [WriteWaveHeader_eq_writeAll,
    writeAll_fail _ _ k (by simpa [headerSegments] using hk) hbefore hfail]
  simp

/-- C4: the headers written for two payload sizes have the same length and
the same byte at every position outside the RIFF size field (bytes 4-7) and
the final 4-byte `data` size field; in particular both carry the same format
block, and a rewrite at offset 0 of a file made of the first header and a
payload replaces the header and leaves every payload byte in place. -/
theorem C4_headers_differ_only_in_sizes (f1 f2 : HANDLE) (p : WaveFormat) (d1 d2 : Nat)
    (hwf : p.WellFormed)
    (hok1 : ∀ i, i < 4 → f1.writeOutcomes.getD i true = true)
    (hok2 : ∀ i, i < 4 → f2.writeOutcomes.getD i true = true) :
    (emitted f1 (WriteWaveHeader f1 p d1).2).length
      = (emitted f2 (WriteWaveHeader f2 p d2).2).length ∧
    (∀ i, i < (emitted f1 (WriteWaveHeader f1 p d1).2).length - 4 → ¬ (4 ≤ i ∧ i < 8) →
      (emitted f1 (WriteWaveHeader f1 p d1).2)[i]?
        = (emitted f2 (WriteWaveHeader f2 p d2).2)[i]?) ∧
    ((emitted f1 (WriteWaveHeader f1 p d1).2).drop 20).take
        (sizeof_WAVEFORMATEX + p.fixed.cbSize)
      = p.fixed.bytes ++ p.extension.take p.fixed.cbSize ∧
    ((emitted f2 (WriteWaveHeader f2 p d2).2).drop 20).take
        (sizeof_WAVEFORMATEX + p.fixed.cbSize)
      = p.fixed.bytes ++ p.extension.take p.fixed.cbSize ∧
    (∀ (g : HANDLE) (payload : List Nat),
      g.content = emitted f1 (WriteWaveHeader f1 p d1).2 ++ payload →
      g.seekOutcomes.getD 0 true = true →
      (∀ i, i < 4 → g.writeOutcomes.getD i true = true) →
      (WriteWaveHeader (SetFilePointer g 0).2 p d2).2.content
        = emitted f2 (WriteWaveHeader f2 p d2).2 ++ payload) := by
  rw [WriteWaveHeader_emitted f1 p d1 hok1, WriteWaveHeader_emitted f2 p d2 hok2]
  have hb := block_length p hwf
  have hblock : ∀ d, ((headerImage p d).drop 20).take (sizeof_WAVEFORMATEX + p.fixed.cbSize)
      = p.fixed.bytes ++ p.extension.take p.fixed.cbSize := by
    intro d
    have e : headerImage p d = (ascii "RIFF" ++ le32 (waveHeaderOf p d).dwSize ++ ascii "WAVE"
        ++ ascii "fmt " ++ le32 ((sizeof_WAVEFORMATEX + p.fixed.cbSize) % DWORD_MOD))
        ++ (p.block ++ (ascii "data" ++ le32 d)) := by
      rw [headerImage_eq]; simp
    rw [e, List.drop_left' (by simp [ascii, le32_length]), ← hb, List.take_left' rfl]
    rfl
  refine ⟨by rw [headerImage_length, headerImage_length], ?_, hblock d1, hblock d2, ?_⟩
  · intro i hi hne
    rw [headerImage_length, hb] at hi
    have e : ∀ d, headerImage p d = ascii "RIFF" ++ le32 (waveHeaderOf p d).dwSize
        ++ (ascii "WAVE" ++ ascii "fmt "
          ++ le32 ((sizeof_WAVEFORMATEX + p.fixed.cbSize) % DWORD_MOD) ++ p.block
          ++ ascii "data") ++ le32 d := by
      intro d; rw [headerImage_eq]; simp
    rw [e d1, e d2]
    apply getElem?_frame _ _ _ _ _ _ (by simp [le32_length])
    have hA : (ascii "RIFF").length = 4 := rfl
    have hB : (ascii "WAVE" ++ ascii "fmt "
          ++ le32 ((sizeof_WAVEFORMATEX + p.fixed.cbSize) % DWORD_MOD) ++ p.block
          ++ ascii "data").length = 16 + (sizeof_WAVEFORMATEX + p.fixed.cbSize) := by
      simp [ascii, le32_length, hb]; omega
    rw [hA, hB, le32_length]
    omega
  · intro g payload hg hseek hokg
    have hs : SetFilePointer g 0 = (0, { g with
        pointer := 0
        seekOutcomes := g.seekOutcomes.tail
        trace := g.trace ++ [Event.setFilePointer 0 true] }) := by
      have : g.seekOutcomes.headD true = true := by
        cases hw : g.seekOutcomes with
        | nil => rfl
        | cons a l => simpa [hw] using hseek
      unfold SetFilePointer; rw [this]; rfl
    have hw := WriteWaveHeader_ok (SetFilePointer g 0).2 p d2 (by rw [hs]; exact hokg)
    rw [hw, hs]
    simp only [hg]
    exact overwrite_at_start _ _ _ (by rw [headerImage_length, headerImage_length])

/-- C4, on the format with a two-byte extension, for the payload sizes 0 and
5. -/
theorem C4_headers_differ_only_in_sizes_witness :
    extFormat.WellFormed ∧
    (emitted newFile (WriteWaveHeader newFile extFormat 0).2).length
      = (emitted newFile (WriteWaveHeader newFile extFormat 5).2).length ∧
    ((emitted newFile (WriteWaveHeader newFile extFormat 0).2).drop 20).take
        (sizeof_WAVEFORMATEX + extFormat.fixed.cbSize)
      = [1, 0, 4, 0, 128, 62, 0, 0, 0, 232, 3, 0, 16, 0, 32, 0, 2, 0, 7, 9] :=
  ⟨by decide,
    (C4_headers_differ_only_in_sizes newFile newFile extFormat 0 5
      (by decide) (by decide) (by decide)).1,
    by decide⟩

/-- C10: `WriteWaveHeader` returns `S_OK` exactly when its four writes (the
RIFF/WAVE/fmt prefix, the format block, the `data` tag, the data size) all
succeed; when write number `k` (counted from 0) is the first to fail it
returns `E_FAIL`, the file holds the first `k` buffers and nothing of the
others, and the calls made are those `k` successful writes followed by the
failed one, with no write after it. -/
theorem C10_first_failed_write (waveFile : HANDLE) (p : WaveFormat) (dataSize : Nat) :
    ((WriteWaveHeader waveFile p dataSize).1 = S_OK ↔
      ∀ i, i < 4 → waveFile.writeOutcomes.getD i true = true) ∧
    (∀ k, k < 4 → (∀ i, i < k → waveFile.writeOutcomes.getD i true = true) →
      waveFile.writeOutcomes.getD k true = false →
      (WriteWaveHeader waveFile p dataSize).1 = E_FAIL ∧
      (WriteWaveHeader waveFile p dataSize).2.content
        = overwrite waveFile.content waveFile.pointer
            ((headerSegments p dataSize).take k).flatten ∧
      (WriteWaveHeader waveFile p dataSize).2.pointer
        = waveFile.pointer + ((headerSegments p dataSize).take k).flatten.length ∧
      (WriteWaveHeader waveFile p dataSize).2.trace
        = waveFile.trace
          ++ ((headerSegments p dataSize).take k).map (fun d => Event.writeFile d true)
          ++ [Event.writeFile ((headerSegments p dataSize).getD k []) false] ∧
      (WriteWaveHeader waveFile p dataSize).2.writeOutcomes
        = waveFile.writeOutcomes.drop (k + 1)) := by
  constructor
  · constructor
    · intro hS
      by_contra hno
      obtain ⟨k, hk, hb, hf⟩ := first_failure _ hno
      rw [WriteWaveHeader_fail waveFile p dataSize k hk hb hf] at hS
      exact E_FAIL_ne_S_OK hS
    · intro hok
      rw [WriteWaveHeader_ok waveFile p dataSize hok]
  · intro k hk hb hf
    rw [WriteWaveHeader_fail waveFile p dataSize k hk hb hf]
    exact ⟨rfl, rfl, rfl, rfl, rfl⟩

/-- C10, on a new file whose third write fails: `E_FAIL`, the 40 bytes of the
prefix and of the format block in the file, three calls in the trace. -/
theorem C10_first_failed_write_witness :
    (∀ i, i < 2 → thirdWriteFails.writeOutcomes.getD i true = true) ∧
    thirdWriteFails.writeOutcomes.getD 2 true = false ∧
    (WriteWaveHeader thirdWriteFails extFormat 5).1 = E_FAIL ∧
    (WriteWaveHeader thirdWriteFails extFormat 5).2.content
      = overwrite thirdWriteFails.content thirdWriteFails.pointer
          ((headerSegments extFormat 5).take 2).flatten ∧
    (WriteWaveHeader thirdWriteFails extFormat 5).2.content.length = 40 ∧
    (WriteWaveHeader thirdWriteFails extFormat 5).2.trace.length = 3 :=
  ⟨by decide, by decide,
    ((C10_first_failed_write thirdWriteFails extFormat 5).2 2 (by decide) (by decide)
      (by decide)).1,
    ((C10_first_failed_write thirdWriteFails extFormat 5).2 2 (by decide) (by decide)
      (by decide)).2.1,
    by decide, by decide⟩

/-! ## Properties of `CaptureAudio` -/

theorem SetFilePointer_ok (h : HANDLE) (offset : Nat)
    (hok : h.seekOutcomes.getD 0 true = true) :
    SetFilePointer h offset = (offset,
      { content := h.content
        pointer := offset
        writeOutcomes := h.writeOutcomes
        seekOutcomes := h.seekOutcomes.tail
        trace := h.trace ++ [Event.setFilePointer offset true] }) := by
  have : h.seekOutcomes.headD true = true := by
    cases hw : h.seekOutcomes with
    | nil => rfl
    | cons a l => simpa [hw] using hok
  unfold SetFilePointer; rw [this]; rfl

theorem streamBuffers_ok (bufs : List (List Nat)) (n : Nat) (h : HANDLE)
    (hok : ∀ i, i < bufs.length → h.writeOutcomes.getD i true = true) :
    streamBuffers bufs n h = (n + bufs.flatten.length,
      { content := overwrite h.content h.pointer bufs.flatten
        pointer := h.pointer + bufs.flatten.length
        writeOutcomes := h.writeOutcomes.drop bufs.length
        seekOutcomes := h.seekOutcomes
        trace := h.trace ++ bufs.map (fun d => Event.writeFile d true) }) := by
  induction bufs generalizing h n with
  | nil => simp [streamBuffers, overwrite_nil]
  | cons s ss ih =>
    have h0 := hok 0 (by simp)
    simp only [streamBuffers, WriteFile_ok h s h0]
    rw [if_pos True.intro, ih]
    · simp [overwrite_append, Nat.add_assoc]
    · intro i hi
      simp only [getD_tail]
      exact hok (i + 1) (by simpa using hi)

theorem getD_drop (l : List Bool) (k i : Nat) :
    (l.drop k).getD i true = l.getD (k + i) true := by
  simp [List.getD_eq_getElem?_getD, List.getElem?_drop]

/-- The complete run of `CaptureAudio` on a new file when every call
succeeds and the user presses `s`. -/
theorem CaptureAudio_ok (capturer : CWASAPICapture) (waveFile : HANDLE) (keys : List Char)
    (hstate : capturer.state = SessionState.created)
    (hstart : capturer.startSucceeds = true)
    (hcount : capturer.bytesCaptured = 0)
    (hfile : waveFile.content = []) (hptr : waveFile.pointer = 0)
    (hw : ∀ i, waveFile.writeOutcomes.getD i true = true)
    (hs : waveFile.seekOutcomes.getD 0 true = true)
    (hkeys : waitForStop keys ≠ none) :
    ∃ c f, CaptureAudio capturer waveFile keys = some (S_OK, c, f) ∧
      c.BytesCaptured = capturer.incoming.flatten.length ∧
      f.content = headerImage capturer.outputFormat
          (capturer.incoming.flatten.length % DWORD_MOD) ++ capturer.incoming.flatten := by
  obtain ⟨rest, hrest⟩ : ∃ rest, waitForStop keys = some rest := by
    cases hk : waitForStop keys with
    | none => exact absurd hk hkeys
    | some r => exact ⟨r, rfl⟩
  have h1 := WriteWaveHeader_ok waveFile capturer.outputFormat 0 (fun i _ => hw i)
  unfold CaptureAudio
  simp only [CWASAPICapture.GetOutputFormat, h1, SUCCEEDED, S_OK, le_refl, decide_True,
    if_true, CWASAPICapture.Start, hstate, hstart, and_self, hrest, CWASAPICapture.stream,
    CWASAPICapture.Stop, CWASAPICapture.BytesCaptured]
  rw [streamBuffers_ok _ _ _ (fun i _ => by simp only [getD_drop]; exact hw _)]
  simp only []
  rw [SetFilePointer_ok _ _ (by exact hs)]
  simp only []
  rw [WriteWaveHeader_ok _ _ _ (fun i _ => by simp only [getD_drop]; exact hw _)]
  refine ⟨_, _, rfl, ?_, ?_⟩
  · simp [hcount]
  · simp only [hfile, hptr, hcount, Nat.zero_add]
    have e0 : overwrite [] 0 (headerImage capturer.outputFormat 0)
        = headerImage capturer.outputFormat 0 := by
      simpa using overwrite_at_end [] (headerImage capturer.outputFormat 0)
    rw [e0, overwrite_at_end]
    exact overwrite_at_start _ _ _ (by rw [headerImage_length, headerImage_length])

/-- The size fields and the payload of the file `CaptureAudio` leaves when
every call succeeds: both fields hold their value modulo `2^32`. -/
theorem CaptureAudio_fields (capturer : CWASAPICapture) (waveFile : HANDLE) (keys : List Char)
    (hwf : capturer.outputFormat.WellFormed)
    (hstate : capturer.state = SessionState.created)
    (hstart : capturer.startSucceeds = true)
    (hcount : capturer.bytesCaptured = 0)
    (hfile : waveFile.content = []) (hptr : waveFile.pointer = 0)
    (hw : ∀ i, waveFile.writeOutcomes.getD i true = true)
    (hs : waveFile.seekOutcomes.getD 0 true = true)
    (hkeys : waitForStop keys ≠ none) :
    ∃ c f, CaptureAudio capturer waveFile keys = some (S_OK, c, f) ∧
      f.content.length = 20 + sizeof_WAVEFORMATEX + capturer.outputFormat.fixed.cbSize + 8
        + capturer.incoming.flatten.length ∧
      fromLE32 ((f.content.drop 4).take 4)
        = (capturer.incoming.flatten.length
            + (20 + sizeof_WAVEFORMATEX + capturer.outputFormat.fixed.cbSize + 8) - 8)
          % DWORD_MOD ∧
      fromLE32 ((f.content.drop
          (20 + sizeof_WAVEFORMATEX + capturer.outputFormat.fixed.cbSize + 8 - 4)).take 4)
        = capturer.incoming.flatten.length % DWORD_MOD ∧
      f.content.drop (20 + sizeof_WAVEFORMATEX + capturer.outputFormat.fixed.cbSize + 8)
        = capturer.incoming.flatten ∧
      f.content.take (20 + sizeof_WAVEFORMATEX + capturer.outputFormat.fixed.cbSize + 8)
        = headerImage capturer.outputFormat (capturer.incoming.flatten.length % DWORD_MOD) := by
  obtain ⟨c, f, hrun, -, hcontent⟩ :=
    CaptureAudio_ok capturer waveFile keys hstate hstart hcount hfile hptr hw hs hkeys
  refine ⟨c, f, hrun, ?_⟩
  rw [hcontent]
  generalize capturer.incoming.flatten = payload
  generalize capturer.outputFormat = p at hwf
  generalize hd : payload.length % DWORD_MOD = d
  have hd' : d % DWORD_MOD = d := by rw [← hd, Nat.mod_mod]
  have hb := block_length p hwf
  have hlen : (headerImage p d).length = 20 + sizeof_WAVEFORMATEX + p.fixed.cbSize + 8 := by
    rw [headerImage_length, hb]; omega
  have hcb := hwf.1
  refine ⟨by rw [List.length_append, hlen], ?_, ?_, ?_, ?_⟩
  · have hfield : ((headerImage p d ++ payload).drop 4).take 4
        = le32 (waveHeaderOf p d).dwSize := by
      rw [headerImage_eq]
      simp [ascii, le32]
    rw [hfield, dwSize_eq p d hcb, fromLE32_le32_mod, Nat.mod_mod, ← hd]
    unfold sizeof_WAVEFORMATEX DWORD_MOD
    omega
  · have e : headerImage p d ++ payload
        = (ascii "RIFF" ++ le32 (waveHeaderOf p d).dwSize ++ ascii "WAVE" ++ ascii "fmt "
            ++ le32 ((sizeof_WAVEFORMATEX + p.fixed.cbSize) % DWORD_MOD)
            ++ p.block ++ ascii "data") ++ (le32 d ++ payload) := by
      rw [headerImage_eq]; simp
    rw [e, List.drop_left' (by simp [ascii, le32_length, hb]; omega)]
    have : (le32 d ++ payload).take 4 = le32 d := List.take_left' rfl
    rw [this, fromLE32_le32_mod, hd']
  · rw [← hlen, List.drop_left]
  · rw [← hlen, List.take_left]

/-- C3, as stated for every `N`, fails once the sizes leave 32 bits: a capture
of `2^32` payload bytes on the PCM format ends with `S_OK`, the payload follows
the 46-byte header, yet the `data` size field holds 0 and the RIFF size field
holds 38. -/
theorem C3_size_fields_wrap :
    ∃ c f, CaptureAudio hugeCapturer newFile ['s'] = some (S_OK, c, f) ∧
      hugeCapturer.incoming.flatten.length = 4294967296 ∧
      f.content.drop 46 = hugeCapturer.incoming.flatten ∧
      fromLE32 ((f.content.drop 42).take 4) = 0 ∧
      fromLE32 ((f.content.drop 42).take 4) ≠ hugeCapturer.incoming.flatten.length ∧
      fromLE32 ((f.content.drop 4).take 4) = 38 ∧
      fromLE32 ((f.content.drop 4).take 4) ≠ hugeCapturer.incoming.flatten.length + 46 - 8 := by
  have hN : hugeCapturer.incoming.flatten.length = 4294967296 := by
    show ([List.replicate 4294967296 0].flatten).length = 4294967296
    rw [List.flatten_cons, List.flatten_nil, List.append_nil, List.length_replicate]
  obtain ⟨c, f, hrun, -, hriff, hdata, hpay, -⟩ :=
    CaptureAudio_fields hugeCapturer newFile ['s'] (by decide) rfl rfl rfl rfl rfl
      (fun i => by simp [newFile]) (by decide) (by decide)
  have hcb : hugeCapturer.outputFormat.fixed.cbSize = 0 := rfl
  rw [hcb, hN] at hriff hdata
  rw [hcb] at hpay
  have h0 : fromLE32 ((f.content.drop 42).take 4) = 0 := hdata
  have h38 : fromLE32 ((f.content.drop 4).take 4) = 38 := hriff
  refine ⟨c, f, hrun, hN, hpay, h0, ?_, h38, ?_⟩
  · rw [h0, hN]; decide
  · rw [h38, hN]; decide

/-- C3, amended: on a new file, for a well-formed format and a payload of `N`
bytes with `N + headerSize - 8 < 2^32`, when every call succeeds and the user
presses `s`, `CaptureAudio` returns `S_OK` and leaves a file of
`headerSize + N` bytes whose RIFF size field equals `N + headerSize - 8`,
whose `data` size field equals `N`, whose first `headerSize` bytes are the
header `WriteWaveHeader` emits for `dataSize = N`, and whose bytes after the
header are the payload bytes in arrival order; for `N = 0` the file is that
header with `data` size 0 and nothing after it. -/
theorem C3_round_trip (capturer : CWASAPICapture) (waveFile : HANDLE) (keys : List Char)
    (hwf : capturer.outputFormat.WellFormed)
    (hstate : capturer.state = SessionState.created)
    (hstart : capturer.startSucceeds = true)
    (hcount : capturer.bytesCaptured = 0)
    (hfile : waveFile.content = []) (hptr : waveFile.pointer = 0)
    (hw : ∀ i, waveFile.writeOutcomes.getD i true = true)
    (hs : waveFile.seekOutcomes.getD 0 true = true)
    (hkeys : waitForStop keys ≠ none)
    (hN : capturer.incoming.flatten.length
      + (20 + sizeof_WAVEFORMATEX + capturer.outputFormat.fixed.cbSize + 8) - 8 < DWORD_MOD) :
    ∃ c f, CaptureAudio capturer waveFile keys = some (S_OK, c, f) ∧
      f.content.length = 20 + sizeof_WAVEFORMATEX + capturer.outputFormat.fixed.cbSize + 8
        + capturer.incoming.flatten.length ∧
      fromLE32 ((f.content.drop 4).take 4)
        = capturer.incoming.flatten.length
            + (20 + sizeof_WAVEFORMATEX + capturer.outputFormat.fixed.cbSize + 8) - 8 ∧
      fromLE32 ((f.content.drop
          (20 + sizeof_WAVEFORMATEX + capturer.outputFormat.fixed.cbSize + 8 - 4)).take 4)
        = capturer.incoming.flatten.length ∧
      f.content.drop (20 + sizeof_WAVEFORMATEX + capturer.outputFormat.fixed.cbSize + 8)
        = capturer.incoming.flatten ∧
      f.content.take (20 + sizeof_WAVEFORMATEX + capturer.outputFormat.fixed.cbSize + 8)
        = emitted waveFile (WriteWaveHeader waveFile capturer.outputFormat
            capturer.incoming.flatten.length).2 ∧
      (capturer.incoming.flatten.length = 0 →
        f.content = emitted waveFile (WriteWaveHeader waveFile capturer.outputFormat 0).2) := by
  obtain ⟨c, f, hrun, hlen, hriff, hdata, hpay, hhdr⟩ :=
    CaptureAudio_fields capturer waveFile keys hwf hstate hstart hcount hfile hptr hw hs hkeys
  have hlt : capturer.incoming.flatten.length < DWORD_MOD := by
    unfold sizeof_WAVEFORMATEX at hN; omega
  rw [Nat.mod_eq_of_lt hN] at hriff
  rw [Nat.mod_eq_of_lt hlt] at hdata hhdr
  rw [WriteWaveHeader_emitted waveFile _ _ (fun i _ => hw i),
    WriteWaveHeader_emitted waveFile _ _ (fun i _ => hw i)]
  refine ⟨c, f, hrun, hlen, hriff, hdata, hpay, hhdr, ?_⟩
  intro h0
  rw [h0] at hhdr hlen
  rw [← hhdr]
  exact (List.take_of_length_le (by omega)).symm

/-- C3, amended, on the session that receives the buffers `[1, 2, 3]` and
`[4, 5]`, and on the session that receives nothing. -/
theorem C3_round_trip_witness :
    (sampleCapturer.incoming.flatten.length
      + (20 + sizeof_WAVEFORMATEX + sampleCapturer.outputFormat.fixed.cbSize + 8) - 8
        < DWORD_MOD) ∧
    waitForStop ['x', 's'] ≠ none ∧
    (∃ c f, CaptureAudio sampleCapturer newFile ['x', 's'] = some (S_OK, c, f) ∧
      fromLE32 ((f.content.drop 4).take 4) = 5 + 46 - 8 ∧
      fromLE32 ((f.content.drop 42).take 4) = 5 ∧
      f.content.drop 46 = [1, 2, 3, 4, 5]) ∧
    (∃ c f, CaptureAudio silentCapturer newFile ['s'] = some (S_OK, c, f) ∧
      f.content.length = 46 ∧
      fromLE32 ((f.content.drop 42).take 4) = 0) := by
  refine ⟨by decide, by decide, ?_, ?_⟩
  · obtain ⟨c, f, hrun, -, hriff, hdata, hpay, -⟩ :=
      C3_round_trip sampleCapturer newFile ['x', 's'] (by decide) rfl rfl rfl rfl rfl
        (fun i => by simp [newFile]) (by decide) (by decide) (by decide)
    exact ⟨c, f, hrun, hriff, hdata, hpay⟩
  · obtain ⟨c, f, hrun, hlen, -, hdata, -, -⟩ :=
      C3_round_trip silentCapturer newFile ['s'] (by decide) rfl rfl rfl rfl rfl
        (fun i => by simp [newFile]) (by decide) (by decide) (by decide)
    exact ⟨c, f, hrun, hlen, hdata⟩

set_option maxRecDepth 100000 in
/-- C7: a failed header rewrite is reported (`E_FAIL` on the file whose
seventh write fails), a failed seek is not: on a new file whose seek back to
offset 0 fails while every write succeeds, `CaptureAudio` returns `S_OK`; the
failed seek is in the trace, the final header lands after the five payload
bytes and the file still starts with the placeholder header, whose `data`
size field is 0. -/
theorem C7_seek_failure_unreported :
    (CaptureAudio sampleCapturer rewriteFails ['s']).map (fun r => r.1) = some E_FAIL ∧
    (CaptureAudio sampleCapturer seekFails ['s']).map (fun r => r.1) = some S_OK ∧
    (CaptureAudio sampleCapturer seekFails ['s']).map
        (fun r => decide (Event.setFilePointer 0 false ∈ r.2.2.trace)) = some true ∧
    (CaptureAudio sampleCapturer seekFails ['s']).map (fun r => r.2.2.content.length)
      = some (46 + 5 + 46) ∧
    (CaptureAudio sampleCapturer seekFails ['s']).map
        (fun r => fromLE32 ((r.2.2.content.drop 42).take 4)) = some 0 ∧
    (CaptureAudio sampleCapturer seekFails ['s']).map
        (fun r => (r.2.2.content.drop 46).take 5) = some [1, 2, 3, 4, 5] := by
  decide

/-- C8: when the placeholder header write fails (one of its four `WriteFile`
calls does), `CaptureAudio` returns the failure code `E_FAIL` and stops there:
the capturer is untouched, the handle is in the state the failed header write
left it in, and the calls made are at most four `WriteFile` calls, with no
`Start`, no `Stop`, no seek and no second header write. -/
theorem C8_placeholder_failure (capturer : CWASAPICapture) (waveFile : HANDLE)
    (keys : List Char)
    (hfail : ¬ ∀ i, i < 4 → waveFile.writeOutcomes.getD i true = true) :
    CaptureAudio capturer waveFile keys
      = some (E_FAIL, capturer, (WriteWaveHeader waveFile capturer.GetOutputFormat 0).2) ∧
    SUCCEEDED E_FAIL = false ∧
    (∃ calls : List Event,
      (WriteWaveHeader waveFile capturer.GetOutputFormat 0).2.trace = waveFile.trace ++ calls ∧
      calls.length ≤ 4 ∧
      (∀ e, e ∈ calls → ∃ data ok, e = Event.writeFile data ok) ∧
      (∀ b, Event.start b ∉ calls) ∧ Event.stop ∉ calls ∧
      (∀ o b, Event.setFilePointer o b ∉ calls)) := by
  obtain ⟨k, hk, hb, hf⟩ := first_failure _ hfail
  have hW := WriteWaveHeader_fail waveFile capturer.GetOutputFormat 0 k hk hb hf
  refine ⟨?_, by decide, ?_⟩
  · unfold CaptureAudio
    rw [hW]
    simp [SUCCEEDED, E_FAIL]
  · rw [hW]
    have hall : ∀ e, e ∈ ((headerSegments capturer.GetOutputFormat 0).take k).map
          (fun d => Event.writeFile d true)
          ++ [Event.writeFile ((headerSegments capturer.GetOutputFormat 0).getD k []) false] →
        ∃ data ok, e = Event.writeFile data ok := by
      intro e he
      rcases List.mem_append.mp he with h | h
      · obtain ⟨d, -, rfl⟩ := List.mem_map.mp h
        exact ⟨d, true, rfl⟩
      · exact ⟨_, false, by simpa using h⟩
    refine ⟨_, (List.append_assoc _ _ _), ?_, hall, ?_, ?_, ?_⟩
    · simp [headerSegments]; omega
    · intro b hmem
      obtain ⟨d, ok, h⟩ := hall _ hmem
      cases h
    · intro hmem
      obtain ⟨d, ok, h⟩ := hall _ hmem
      cases h
    · intro o b hmem
      obtain ⟨d, ok, h⟩ := hall _ hmem
      cases h

/-- C8, on a new file whose first write fails: `E_FAIL`, an empty file, one
call in the trace. -/
theorem C8_placeholder_failure_witness :
    (¬ ∀ i, i < 4 → firstWriteFails.writeOutcomes.getD i true = true) ∧
    CaptureAudio sampleCapturer firstWriteFails ['s']
      = some (E_FAIL, sampleCapturer,
          (WriteWaveHeader firstWriteFails sampleCapturer.GetOutputFormat 0).2) ∧
    (WriteWaveHeader firstWriteFails sampleCapturer.GetOutputFormat 0).2.content = [] ∧
    (WriteWaveHeader firstWriteFails sampleCapturer.GetOutputFormat 0).2.trace.length = 1 :=
  ⟨by decide,
    (C8_placeholder_failure sampleCapturer firstWriteFails ['s'] (by decide)).1,
    by decide, by decide⟩

/-! ## Properties of `GetKinectAudioDevice` -/

theorem scanDevices_first (pre : List IMMDevice) (d : IMMDevice) (post : List IMMDevice)
    (hr : HRESULT)
    (hcalls : ∀ x, x ∈ pre ++ [d] →
      SUCCEEDED x.hrItem = true ∧ SUCCEEDED x.hrOpenPropertyStore = true)
    (hpre : ∀ x, x ∈ pre → isKinectName x.pwszVal = some false)
    (hd : isKinectName d.pwszVal = some true) :
    scanDevices (pre ++ d :: post) hr = some (d.hrFriendlyName, some d) := by
  induction pre generalizing hr with
  | nil =>
    obtain ⟨h1, h2⟩ := hcalls d (by simp)
    simp [scanDevices, hd, h1, h2]
  | cons x xs ih =>
    obtain ⟨h1, h2⟩ := hcalls x (by simp)
    have hx := hpre x (by simp)
    simp only [List.cons_append, scanDevices, hx, h1, h2, Bool.not_true, Bool.false_eq_true,
      if_false]
    exact ih _ (fun y hy => hcalls y (by simp at hy ⊢; tauto))
      (fun y hy => hpre y (by simp [hy]))

theorem scanDevices_none (l : List IMMDevice) (hr : HRESULT)
    (hcalls : ∀ x, x ∈ l →
      SUCCEEDED x.hrItem = true ∧ SUCCEEDED x.hrOpenPropertyStore = true
        ∧ SUCCEEDED x.hrFriendlyName = true)
    (hno : ∀ x, x ∈ l → isKinectName x.pwszVal = some false)
    (hhr : SUCCEEDED hr = true) :
    ∃ hr', scanDevices l hr = some (hr', none) ∧ SUCCEEDED hr' = true := by
  induction l generalizing hr with
  | nil => exact ⟨hr, rfl, hhr⟩
  | cons x xs ih =>
    obtain ⟨h1, h2, h3⟩ := hcalls x (by simp)
    have hx := hno x (by simp)
    simp only [scanDevices, hx, h1, h2, Bool.not_true, Bool.false_eq_true, if_false]
    exact ih _ (fun y hy => hcalls y (by simp [hy])) (fun y hy => hno y (by simp [hy])) h3

/-- The selection made by `GetKinectAudioDevice`, relative to the name test
the code applies: when the enumeration and every per-endpoint call succeed,
the first endpoint in enumeration order that passes `isKinectName` is
returned with the result of reading its name, and when none passes the result
is `E_FAIL` with no endpoint. -/
theorem GetKinectAudioDevice_first_passing (e : DeviceEnumeration)
    (h1 : SUCCEEDED e.hrCreate = true) (h2 : SUCCEEDED e.hrEnum = true)
    (h3 : SUCCEEDED e.hrCount = true)
    (hcalls : ∀ x, x ∈ e.devices →
      SUCCEEDED x.hrItem = true ∧ SUCCEEDED x.hrOpenPropertyStore = true
        ∧ SUCCEEDED x.hrFriendlyName = true) :
    (∀ pre d post, e.devices = pre ++ d :: post →
      (∀ x, x ∈ pre → isKinectName x.pwszVal = some false) →
      isKinectName d.pwszVal = some true →
      GetKinectAudioDevice e = some (d.hrFriendlyName, some d)) ∧
    ((∀ x, x ∈ e.devices → isKinectName x.pwszVal = some false) →
      GetKinectAudioDevice e = some (E_FAIL, none)) := by
  constructor
  · intro pre d post hdev hpre hd
    have hs := scanDevices_first pre d post e.hrCount
      (fun x hx => by
        have := hcalls x (by rw [hdev]; simp at hx ⊢; tauto)
        exact ⟨this.1, this.2.1⟩) hpre hd
    unfold GetKinectAudioDevice
    simp only [h1, h2, h3, if_true, hdev, hs]
    simp
  · intro hno
    obtain ⟨hr', hs, hsucc⟩ := scanDevices_none e.devices e.hrCount hcalls hno h3
    unfold GetKinectAudioDevice
    simp only [h1, h2, h3, if_true, hs]
    simp [hsucc]

/-- C5: on the scenario list `Speakers`, `Microphone Array (Xbox NUI Sensor)`
the second entry is returned with `S_OK`, on a list with two Kinect arrays the
first of them, on the empty list `E_FAIL`; yet on the list `Microphone Array
(7- Realtek Audio)`, `Microphone Array (Xbox NUI Sensor)`, whose only name
matching the literal or the template is the second, `GetKinectAudioDevice`
returns the first endpoint, and on the list made of that first name alone,
where no name matches, it returns the endpoint with `S_OK` instead of the
not-found failure. -/
theorem C5_returns_endpoint_outside_the_pattern :
    GetKinectAudioDevice speakersThenKinect
      = some (S_OK, some (namedDevice 1 "Microphone Array (Xbox NUI Sensor)")) ∧
    GetKinectAudioDevice twoKinects
      = some (S_OK, some (namedDevice 1 "Microphone Array (2- Xbox NUI Sensor)")) ∧
    GetKinectAudioDevice noDevices = some (E_FAIL, none) ∧
    specNameTest "Microphone Array (7- Realtek Audio)" = false ∧
    specNameTest "Microphone Array (Xbox NUI Sensor)" = true ∧
    GetKinectAudioDevice realtekThenKinect
      = some (S_OK, some (namedDevice 0 "Microphone Array (7- Realtek Audio)")) ∧
    GetKinectAudioDevice realtekThenKinect
      ≠ some (S_OK, some (namedDevice 1 "Microphone Array (Xbox NUI Sensor)")) ∧
    GetKinectAudioDevice onlyRealtek
      = some (S_OK, some (namedDevice 0 "Microphone Array (7- Realtek Audio)")) ∧
    GetKinectAudioDevice onlyRealtek ≠ some (E_FAIL, none) := by
  decide

/-- C6: the name test accepts the literal and a name of the full template
shape, and rejects other device names; yet it also accepts names that are
neither the literal nor of the template shape, because the scan counts the
`%d` conversion as soon as the integer is read and never looks at what
follows it: `Microphone Array (2`, `Microphone Array (7- Realtek Audio)` and
`MicrophoneArray(  -12xyz` all pass. -/
theorem C6_name_test_accepts_truncated_template :
    isKinectName (some "Microphone Array (Xbox NUI Sensor)") = some true ∧
    isKinectName (some "Microphone Array (2- Xbox NUI Sensor)") = some true ∧
    specNameTest "Microphone Array (2- Xbox NUI Sensor)" = true ∧
    isKinectName (some "Speakers") = some false ∧
    isKinectName (some "Microphone Array (- Xbox NUI Sensor)") = some false ∧
    (isKinectName (some "Microphone Array (2") = some true ∧
      specNameTest "Microphone Array (2" = false) ∧
    (isKinectName (some "Microphone Array (7- Realtek Audio)") = some true ∧
      specNameTest "Microphone Array (7- Realtek Audio)" = false) ∧
    (isKinectName (some "MicrophoneArray(  -12xyz") = some true ∧
      specNameTest "MicrophoneArray(  -12xyz" = false) ∧
    swscanf_s (some "Microphone Array (7- Realtek Audio)")
      "Microphone Array (%d- Xbox NUI Sensor)" = some 1 := by
  decide

/-- C9: an endpoint whose friendly name cannot be read is not skipped.  With
such an endpoint between the speakers and the Kinect microphone array the
process ends inside the loop, whether `GetValue` failed and left a null name
(passed to `swscanf_s`), `OpenPropertyStore` failed or `Item` failed (a call
through a null pointer), while on the list without that endpoint the array is
returned with `S_OK`; and a list made of one unreadable endpoint ends the
process where the empty list gives the not-found failure. -/
theorem C9_unreadable_endpoint_ends_the_process :
    unreadableDevice.pwszVal = none ∧
    GetKinectAudioDevice (kinectAfter unreadableDevice) = none ∧
    GetKinectAudioDevice (kinectAfter storelessDevice) = none ∧
    GetKinectAudioDevice (kinectAfter missingDevice) = none ∧
    GetKinectAudioDevice speakersThenKinect
      = some (S_OK, some (namedDevice 1 "Microphone Array (Xbox NUI Sensor)")) ∧
    GetKinectAudioDevice ⟨0, 0, 0, [unreadableDevice]⟩ = none ∧
    GetKinectAudioDevice noDevices = some (E_FAIL, none) := by
  decide

end AudioCapture
